import Mathlib

/-
  Verification development for the lcd1602 I2C driver (4-bit mode).

  The driver is embedded shallowly: every operation is a pure function on the
  driver handle that returns the list of bytes written to the I2C bus (the
  transport trace), and an Except value for the operations that validate their
  arguments.  Bytes are Nat with explicit truncation mod 256 where the Go code
  relies on 8-bit wraparound.  The bus itself is modelled as always succeeding,
  so the only error constructor is the argument-validation one; bus writes are
  recorded in the returned trace in the order they happen in the code.
-/

set_option maxRecDepth 100000
set_option maxHeartbeats 1000000

namespace Lcd

/-! ## Constants of the driver (values copied from the source) -/

def lcdRegisterCommand : Nat := 0x0
def lcdRegisterData : Nat := 0x1
def lcdWriteMode : Nat := 0x0
def lcdEnableBit : Nat := 0x4
def lcdBacklightOn : Nat := 0x08
def lcdBacklightOff : Nat := 0x00

def lcdClear : Nat := 0x01
def lcdHome : Nat := 0x02

def lcdEntryModeSet : Nat := 0x04
def lcdEntryModeIDIncr : Nat := 0x02
def lcdEntryModeIDDecr : Nat := 0x00
def lcdEntryModeShiftEnable : Nat := 0x01
def lcdEntryModeShiftDisable : Nat := 0x00

def lcdFuncSet : Nat := 0x20
def lcdDL4Bit : Nat := 0x00
def lcdNOneLine : Nat := 0x00
def lcdNTwoLine : Nat := 0x08
def lcdF5x8Dot : Nat := 0x00
def lcdF5x10Dot : Nat := 0x04

def lcdDisplayCtrl : Nat := 0x08
def lcdDisplayOn : Nat := 0x04
def lcdDisplayOff : Nat := 0x00
def lcdDisplayCursorOn : Nat := 0x02
def lcdDisplayCursorOff : Nat := 0x00
def lcdDisplayBlinkOn : Nat := 0x01
def lcdDisplayBlinkOff : Nat := 0x00

def lcdCGRAMAddrBase : Nat := 0x40
def lcdDDRAMAddrBase : Nat := 0x80

def DefaultDevice : String := "/dev/i2c-1"
def DefaultAddress : Int := 0x27
def Font5x8 : Nat := lcdF5x8Dot
def Font5x10 : Nat := lcdF5x10Dot

/-- Errors raised by the driver itself.  The bus transport is modelled as
always succeeding, so only the argument-validation errors remain. -/
inductive DriverError where
  | invalidArgument (msg : String)
deriving DecidableEq, Repr

/-- The driver handle: backlight byte, geometry, font and the mirrored
display-control state.  The i2c device handle is replaced by the traces the
operations return. -/
structure LCD where
  backlight : Nat
  cols : Int
  rows : Int
  font : Nat
  displayState : Nat
deriving DecidableEq, Repr

/-- Go byte(i) conversion for an int: the low 8 bits, two's complement. -/
def byteOfInt (i : Int) : Nat := (i % 256).toNat

/-- busWrite writes a single byte to the I2C bus; the model records it. -/
def busWrite (data : Nat) : List Nat := [data]

/-- writeByte packs one nibble with the control bits, writes it with the
enable bit set, then writes it again with the enable bit cleared
(the Go complement of the byte 0x04 is the mask 0xFB). -/
def writeByte (lcd : LCD) (value rs : Nat) : List Nat :=
  let data := rs ||| lcdWriteMode ||| lcdEnableBit ||| lcd.backlight
  let data := data ||| ((value <<< 4) % 256)
  busWrite data ++ busWrite (data &&& 0xFB)

/-- send transmits a byte in 4-bit mode: high nibble first, then low nibble. -/
def send (lcd : LCD) (value rs : Nat) : List Nat :=
  let high := value >>> 4
  let low := value &&& 0x0F
  writeByte lcd high rs ++ writeByte lcd low rs

/-- sendCommand sends a byte in command-register mode. -/
def sendCommand (lcd : LCD) (command : Nat) : List Nat :=
  send lcd command lcdRegisterCommand

/-- sendData sends a byte in data-register mode. -/
def sendData (lcd : LCD) (data : Nat) : List Nat :=
  send lcd data lcdRegisterData

/-- Clear clears the display. -/
def Clear (lcd : LCD) : List Nat := sendCommand lcd lcdClear

/-- Home moves the cursor to the home position. -/
def Home (lcd : LCD) : List Nat := sendCommand lcd lcdHome

/-- init performs the 4-bit initialization handshake: three 0x03 commands,
one 0x02 command, function set, display control, entry mode, clear. -/
def init (lcd : LCD) : List Nat :=
  sendCommand lcd 0x03 ++ sendCommand lcd 0x03 ++ sendCommand lcd 0x03 ++
  sendCommand lcd 0x02 ++
  (let lineMode := if lcd.rows > 1 then lcdNTwoLine else lcdNOneLine
   sendCommand lcd (lcdFuncSet ||| lcdDL4Bit ||| lineMode ||| lcd.font)) ++
  sendCommand lcd (lcdDisplayCtrl ||| lcd.displayState) ++
  sendCommand lcd (lcdEntryModeSet ||| lcdEntryModeIDIncr ||| lcdEntryModeShiftDisable) ++
  Clear lcd

/-- validateInputs checks cols, rows, font and the font/rows combination. -/
def validateInputs (cols rows : Int) (font : Nat) : Except DriverError Unit :=
  if cols ≠ 16 ∧ cols ≠ 20 then
    .error (.invalidArgument s!"invalid cols value: {cols}, must be 16 or 20")
  else if rows ≠ 1 ∧ rows ≠ 2 ∧ rows ≠ 4 then
    .error (.invalidArgument s!"invalid rows value: {rows}, must be 1, 2, or 4")
  else if font ≠ Font5x8 ∧ font ≠ Font5x10 then
    .error (.invalidArgument s!"invalid font value: {font}")
  else if font = Font5x10 ∧ rows ≠ 1 then
    .error (.invalidArgument s!"Font5x10 is only available for single-line displays, got rows={rows}")
  else
    .ok ()

/-- New validates the parameters, opens the bus, builds the handle with the
backlight byte still zero, runs the initialization handshake, and only then
stores the requested backlight state in the handle. -/
def New (bus : String) (address : Int) (cols rows : Int) (font : Nat)
    (isBacklightOn : Bool) : Except DriverError LCD × List Nat :=
  match validateInputs cols rows font with
  | .error e => (.error e, [])
  | .ok _ =>
    let lcd : LCD :=
      { backlight := 0, cols := cols, rows := rows, font := font,
        displayState := lcdDisplayOn ||| lcdDisplayCursorOff ||| lcdDisplayBlinkOff }
    let trace := init lcd
    let lcd2 := if isBacklightOn then { lcd with backlight := lcdBacklightOn } else lcd
    (.ok lcd2, trace)

/-- SetCursor validates the column against the configured geometry, maps the
row through the fixed switch over 0..3, adds byte(col) with 8-bit wraparound
and sends the resulting DDRAM address command. -/
def SetCursor (lcd : LCD) (row col : Int) : Except DriverError Unit × List Nat :=
  if col < 0 ∨ col ≥ lcd.cols then
    (.error (.invalidArgument s!"invalid col: {col}"), [])
  else if row = 0 then
    (.ok (), sendCommand lcd ((lcdDDRAMAddrBase + byteOfInt col) % 256))
  else if row = 1 then
    (.ok (), sendCommand lcd ((lcdDDRAMAddrBase + 0x40 + byteOfInt col) % 256))
  else if row = 2 then
    (.ok (), sendCommand lcd ((lcdDDRAMAddrBase + 0x14 + byteOfInt col) % 256))
  else if row = 3 then
    (.ok (), sendCommand lcd ((lcdDDRAMAddrBase + 0x54 + byteOfInt col) % 256))
  else
    (.error (.invalidArgument s!"invalid row: {row}"), [])

/-- Write sends every character of the text as a data byte, truncated to a
byte the way the Go rune-to-byte conversion does. -/
def Write (lcd : LCD) (text : String) : List Nat :=
  (text.toList.map fun ch => sendData lcd (ch.toNat % 256)).flatten

/-- Print positions the cursor and then writes the text. -/
def Print (lcd : LCD) (text : String) (row col : Int) : Except DriverError Unit × List Nat :=
  match SetCursor lcd row col with
  | (.error e, t) => (.error e, t)
  | (.ok _, t) => (.ok (), t ++ Write lcd text)

/-- WriteRAW sends one raw character code as a data byte. -/
def WriteRAW (lcd : LCD) (raw : Nat) : List Nat := sendData lcd raw

/-- PrintRAW positions the cursor and then writes one raw character code. -/
def PrintRAW (lcd : LCD) (raw : Nat) (row col : Int) : Except DriverError Unit × List Nat :=
  match SetCursor lcd row col with
  | (.error e, t) => (.error e, t)
  | (.ok _, t) => (.ok (), t ++ WriteRAW lcd raw)

/-- UploadCustomChar masks the location to 3 bits, sends the CGRAM address
command and then the eight pattern bytes. -/
def UploadCustomChar (lcd : LCD) (location : Nat) (char : Fin 8 → Nat) : List Nat :=
  let location2 := location &&& 0x7
  let data := lcdCGRAMAddrBase ||| ((location2 <<< 3) % 256)
  sendCommand lcd data ++ (List.ofFn fun i => sendData lcd (char i)).flatten

/-- EnableBacklight stores the backlight-on byte and writes it raw to the bus. -/
def EnableBacklight (lcd : LCD) : LCD × List Nat :=
  let lcd2 := { lcd with backlight := lcdBacklightOn }
  (lcd2, busWrite lcd2.backlight)

/-- DisableBacklight stores the backlight-off byte and writes it raw to the bus. -/
def DisableBacklight (lcd : LCD) : LCD × List Nat :=
  let lcd2 := { lcd with backlight := lcdBacklightOff }
  (lcd2, busWrite lcd2.backlight)

/-- ToggleBacklight dispatches on the stored backlight byte. -/
def ToggleBacklight (lcd : LCD) : LCD × List Nat :=
  if lcd.backlight = lcdBacklightOff then EnableBacklight lcd else DisableBacklight lcd

/-- DisplayOn sets the display bit and re-sends the display-control command. -/
def DisplayOn (lcd : LCD) : LCD × List Nat :=
  let lcd2 := { lcd with displayState := lcd.displayState ||| lcdDisplayOn }
  (lcd2, sendCommand lcd2 (lcdDisplayCtrl ||| lcd2.displayState))

/-- DisplayOff clears the display bit (Go complement of 0x04 is the mask 0xFB)
and re-sends the display-control command. -/
def DisplayOff (lcd : LCD) : LCD × List Nat :=
  let lcd2 := { lcd with displayState := lcd.displayState &&& 0xFB }
  (lcd2, sendCommand lcd2 (lcdDisplayCtrl ||| lcd2.displayState))

/-- ToggleDisplay dispatches on the mirrored display bit. -/
def ToggleDisplay (lcd : LCD) : LCD × List Nat :=
  if lcd.displayState &&& lcdDisplayOn = lcdDisplayOn then DisplayOff lcd else DisplayOn lcd

/-- CursorOn sets the cursor bit and re-sends the display-control command. -/
def CursorOn (lcd : LCD) : LCD × List Nat :=
  let lcd2 := { lcd with displayState := lcd.displayState ||| lcdDisplayCursorOn }
  (lcd2, sendCommand lcd2 (lcdDisplayCtrl ||| lcd2.displayState))

/-- CursorOff clears the cursor bit (Go complement of 0x02 is the mask 0xFD)
and re-sends the display-control command. -/
def CursorOff (lcd : LCD) : LCD × List Nat :=
  let lcd2 := { lcd with displayState := lcd.displayState &&& 0xFD }
  (lcd2, sendCommand lcd2 (lcdDisplayCtrl ||| lcd2.displayState))

/-- ToggleCursor dispatches on the mirrored cursor bit. -/
def ToggleCursor (lcd : LCD) : LCD × List Nat :=
  if lcd.displayState &&& lcdDisplayCursorOn = lcdDisplayCursorOn then CursorOff lcd else CursorOn lcd

/-- BlinkOn sets the blink bit and re-sends the display-control command. -/
def BlinkOn (lcd : LCD) : LCD × List Nat :=
  let lcd2 := { lcd with displayState := lcd.displayState ||| lcdDisplayBlinkOn }
  (lcd2, sendCommand lcd2 (lcdDisplayCtrl ||| lcd2.displayState))

/-- BlinkOff clears the blink bit (Go complement of 0x01 is the mask 0xFE)
and re-sends the display-control command. -/
def BlinkOff (lcd : LCD) : LCD × List Nat :=
  let lcd2 := { lcd with displayState := lcd.displayState &&& 0xFE }
  (lcd2, sendCommand lcd2 (lcdDisplayCtrl ||| lcd2.displayState))

/-- ToggleBlink dispatches on the mirrored blink bit. -/
def ToggleBlink (lcd : LCD) : LCD × List Nat :=
  if lcd.displayState &&& lcdDisplayBlinkOn = lcdDisplayBlinkOn then BlinkOff lcd else BlinkOn lcd

/-- cmdSeq is the trace obtained by sending a list of command bytes in order
with nothing interleaved. -/
def cmdSeq (lcd : LCD) (cs : List Nat) : List Nat :=
  (cs.map (sendCommand lcd)).flatten

/-- Decides that an operation returned the argument-validation error and
performed zero transport writes. -/
def failsInvalidArgNoWrites {α : Type} (r : Except DriverError α × List Nat) : Bool :=
  match r with
  | (.error (.invalidArgument _), []) => true
  | _ => false

/-! ## Helper lemmas -/

/-- validateInputs succeeds exactly on the documented geometry/font domain. -/
theorem validateInputs_ok_iff (cols rows : Int) (font : Nat) :
    validateInputs cols rows font = .ok () ↔
      ((cols = 16 ∨ cols = 20) ∧ (rows = 1 ∨ rows = 2 ∨ rows = 4) ∧
        (font = Font5x8 ∨ font = Font5x10) ∧ (font = Font5x10 → rows = 1)) := by
  unfold validateInputs
  split_ifs with h1 h2 h3 h4 <;> simp_all <;> tauto

/-- Bit arithmetic of the display-control updates, for every byte value. -/
theorem displayState_bit_facts :
    ∀ s : Nat, s < 256 →
      ((s ||| 0x4) &&& 0x7 = (s &&& 0x3) ||| 0x4) ∧
      ((s &&& 0xFB) &&& 0x7 = s &&& 0x3) ∧
      ((s ||| 0x2) &&& 0x7 = (s &&& 0x5) ||| 0x2) ∧
      ((s &&& 0xFD) &&& 0x7 = s &&& 0x5) ∧
      ((s ||| 0x1) &&& 0x7 = (s &&& 0x6) ||| 0x1) ∧
      ((s &&& 0xFE) &&& 0x7 = s &&& 0x6) := by
  decide

/-! ## C1: nibble framing of send -/

/-- C1: for every byte value and register-select flag, send(value, rs) emits
exactly 4 transport writes in the order high-set, high-clear, low-set,
low-clear; the first pair carries the high nibble and the second pair the low
nibble, each byte is backlight OR rs OR enable OR nibble-shifted-left-4, the
enable bit is set exactly on the first and third writes, and the
register-select and backlight bits are identical across all four writes. -/
theorem send_four_writes (lcd : LCD) (value rs : Nat) (hv : value < 256)
    (hrs : rs = lcdRegisterCommand ∨ rs = lcdRegisterData)
    (hbl : lcd.backlight = lcdBacklightOff ∨ lcd.backlight = lcdBacklightOn) :
    send lcd value rs =
      [lcd.backlight ||| rs ||| lcdEnableBit ||| ((value >>> 4) <<< 4),
       lcd.backlight ||| rs ||| ((value >>> 4) <<< 4),
       lcd.backlight ||| rs ||| lcdEnableBit ||| ((value &&& 0x0F) <<< 4),
       lcd.backlight ||| rs ||| ((value &&& 0x0F) <<< 4)] ∧
    (send lcd value rs).map (fun b => b &&& lcdEnableBit) =
      [lcdEnableBit, 0, lcdEnableBit, 0] ∧
    (send lcd value rs).map (fun b => b &&& (lcdRegisterData ||| lcdBacklightOn)) =
      List.replicate 4 (rs ||| lcd.backlight) := by
  rcases hrs with rfl | rfl <;> rcases hbl with h | h <;>
    simp only [send, writeByte, busWrite, h] <;> revert value <;> decide

/-- C1 witness: the framing theorem evaluated on the concrete byte 0xA7 sent
in data mode with the backlight on. -/
theorem send_four_writes_witness :
    (0xA7 : Nat) < 256 ∧
    send ⟨lcdBacklightOn, 16, 2, Font5x8, 0x04⟩ 0xA7 lcdRegisterData =
      [0xAD, 0xA9, 0x7D, 0x79] :=
  ⟨by decide,
   (send_four_writes ⟨lcdBacklightOn, 16, 2, Font5x8, 0x04⟩ 0xA7 lcdRegisterData
      (by decide) (Or.inr rfl) (Or.inr rfl)).1⟩

/-! ## C2: initialization sequence -/

/-- C2: for every valid geometry/font combination, construction emits on the
transport exactly the documented initialization command sequence — three 0x03
writes, one 0x02 write, the full function-set command with the line-count bit
derived from rows and the configured font, the display-control command, the
entry-mode-set command, and clear-display — in that exact order with no other
command bytes interleaved. -/
theorem new_emits_init_sequence (bus : String) (address : Int) (cols rows : Int)
    (font : Nat) (bl : Bool) (h : validateInputs cols rows font = .ok ()) :
    (New bus address cols rows font bl).2 =
      cmdSeq
        { backlight := 0, cols := cols, rows := rows, font := font,
          displayState := lcdDisplayOn ||| lcdDisplayCursorOff ||| lcdDisplayBlinkOff }
        [0x03, 0x03, 0x03, 0x02,
         lcdFuncSet ||| lcdDL4Bit ||| (if rows > 1 then lcdNTwoLine else lcdNOneLine) ||| font,
         lcdDisplayCtrl ||| (lcdDisplayOn ||| lcdDisplayCursorOff ||| lcdDisplayBlinkOff),
         lcdEntryModeSet ||| lcdEntryModeIDIncr ||| lcdEntryModeShiftDisable,
         lcdClear] := by
  simp only [New, h]
  simp [init, cmdSeq, Clear]

/-- C2 witness: the initialization-sequence theorem evaluated on the concrete
16x2, 5x8-font construction. -/
theorem new_emits_init_sequence_witness :
    validateInputs 16 2 Font5x8 = .ok () ∧
    (New DefaultDevice DefaultAddress 16 2 Font5x8 false).2 =
      cmdSeq
        { backlight := 0, cols := 16, rows := 2, font := Font5x8,
          displayState := lcdDisplayOn ||| lcdDisplayCursorOff ||| lcdDisplayBlinkOff }
        [0x03, 0x03, 0x03, 0x02,
         lcdFuncSet ||| lcdDL4Bit ||| (if (2 : Int) > 1 then lcdNTwoLine else lcdNOneLine) ||| Font5x8,
         lcdDisplayCtrl ||| (lcdDisplayOn ||| lcdDisplayCursorOff ||| lcdDisplayBlinkOff),
         lcdEntryModeSet ||| lcdEntryModeIDIncr ||| lcdEntryModeShiftDisable,
         lcdClear] :=
  ⟨rfl, new_emits_init_sequence DefaultDevice DefaultAddress 16 2 Font5x8 false rfl⟩

/-! ## C4: eager validation in New -/

/-- C4: New fails with the argument-validation error and performs zero
transport writes whenever cols is not 16 or 20, rows is not 1, 2 or 4, font is
not 5x8 or 5x10, or the 5x10 font is combined with more than one row; the
validation happens before the bus is touched. -/
theorem new_rejects_invalid (bus : String) (address : Int) (cols rows : Int)
    (font : Nat) (bl : Bool)
    (h : (cols ≠ 16 ∧ cols ≠ 20) ∨ (rows ≠ 1 ∧ rows ≠ 2 ∧ rows ≠ 4) ∨
         (font ≠ Font5x8 ∧ font ≠ Font5x10) ∨ (font = Font5x10 ∧ rows ≠ 1)) :
    failsInvalidArgNoWrites (New bus address cols rows font bl) = true := by
  cases hve : validateInputs cols rows font with
  | error e =>
    cases e with
    | invalidArgument msg => simp [New, hve, failsInvalidArgNoWrites]
  | ok u =>
    exfalso
    cases u
    obtain ⟨hcols, hrows, hfont, h510⟩ := (validateInputs_ok_iff cols rows font).mp hve
    rcases h with ⟨a, b⟩ | ⟨a, b, c⟩ | ⟨a, b⟩ | ⟨a, b⟩ <;> tauto

/-- C4 witness: the eager-validation theorem evaluated on the 5x10 font
combined with two rows, which must fail for every column count. -/
theorem new_rejects_invalid_witness :
    ((Font5x10 = Font5x10 ∧ (2 : Int) ≠ 1)) ∧
    failsInvalidArgNoWrites (New DefaultDevice DefaultAddress 16 2 Font5x10 true) = true :=
  ⟨⟨rfl, by decide⟩,
   new_rejects_invalid DefaultDevice DefaultAddress 16 2 Font5x10 true
     (Or.inr (Or.inr (Or.inr ⟨rfl, by decide⟩)))⟩

/-! ## C9: backlight stays off during the initialization handshake -/

/-- C9: even when New is called with the backlight requested on, every
transport byte of the initialization handshake has the backlight bit clear,
because the handle's backlight field is assigned only after init returns; the
returned handle then carries the backlight-on byte. -/
theorem init_trace_backlight_clear (bus : String) (address : Int) (cols rows : Int)
    (font : Nat) (h : validateInputs cols rows font = .ok ()) :
    ((New bus address cols rows font true).2.all fun b => b &&& lcdBacklightOn == 0) = true ∧
    (New bus address cols rows font true).1 =
      .ok { backlight := lcdBacklightOn, cols := cols, rows := rows, font := font,
            displayState := lcdDisplayOn ||| lcdDisplayCursorOff ||| lcdDisplayBlinkOff } := by
  obtain ⟨hcols, hrows, hfont, h510⟩ := (validateInputs_ok_iff cols rows font).mp h
  constructor
  · simp only [New, h]
    rcases hfont with rfl | rfl
    · rcases hcols with rfl | rfl <;> rcases hrows with rfl | rfl | rfl <;> decide
    · have h1 : rows = 1 := h510 rfl
      subst h1
      rcases hcols with rfl | rfl <;> decide
  · simp only [New, h]
    rfl

/-- C9 witness: the handshake-backlight theorem evaluated on the concrete
16x2, 5x8-font construction with the backlight requested on. -/
theorem init_trace_backlight_clear_witness :
    validateInputs 16 2 Font5x8 = .ok () ∧
    ((New DefaultDevice DefaultAddress 16 2 Font5x8 true).2.all
      fun b => b &&& lcdBacklightOn == 0) = true :=
  ⟨rfl, (init_trace_backlight_clear DefaultDevice DefaultAddress 16 2 Font5x8 rfl).1⟩

/-! ## C3: cursor addressing -/

/-- C3 counterexample: on a handle configured with 16 columns and 2 rows,
SetCursor(2, 0) does not fail — the code never compares the row against the
configured row count — and it performs four transport writes encoding the
row-2 address command 0x94, refuting the claim that a row outside the
configured geometry fails with InvalidArgument and zero writes. -/
theorem setCursor_row_not_checked :
    SetCursor ⟨0, 16, 2, Font5x8, 0x04⟩ 2 0 = (.ok (), [0x94, 0x90, 0x44, 0x40]) := by
  rfl

/-- C3 (amended): on a configured geometry, if col is in range for the
configured column count and row is in {0,1,2,3}, SetCursor sends exactly one
command byte equal to base(row) + col with bases 0x80, 0xC0, 0x94, 0xD4;
if col is outside the configured column range or row is outside {0,1,2,3},
it fails with InvalidArgument and performs zero transport writes.  The row is
checked only against the fixed set {0,1,2,3}, never against the configured
row count. -/
theorem setCursor_addresses (lcd : LCD) (row col : Int)
    (hc : lcd.cols = 16 ∨ lcd.cols = 20) :
    ((0 ≤ col ∧ col < lcd.cols ∧ 0 ≤ row ∧ row ≤ 3) →
      SetCursor lcd row col = (.ok (),
        sendCommand lcd
          ((if row = 0 then 0x80 else if row = 1 then 0xC0
            else if row = 2 then 0x94 else 0xD4) + col.toNat))) ∧
    ((col < 0 ∨ lcd.cols ≤ col ∨ row < 0 ∨ 4 ≤ row) →
      failsInvalidArgNoWrites (SetCursor lcd row col) = true) := by
  constructor
  · rintro ⟨h1, h2, h3, h4⟩
    have hr : row = 0 ∨ row = 1 ∨ row = 2 ∨ row = 3 := by omega
    rcases hr with rfl | rfl | rfl | rfl
    · have harg : (lcdDDRAMAddrBase + byteOfInt col) % 256 = 0x80 + col.toNat := by
        simp only [lcdDDRAMAddrBase, byteOfInt]; omega
      unfold SetCursor
      rw [if_neg (by omega), if_pos rfl, harg]
      norm_num
    · have harg : (lcdDDRAMAddrBase + 0x40 + byteOfInt col) % 256 = 0xC0 + col.toNat := by
        simp only [lcdDDRAMAddrBase, byteOfInt]; omega
      unfold SetCursor
      rw [if_neg (by omega), if_neg (by decide), if_pos rfl, harg]
      norm_num
    · have harg : (lcdDDRAMAddrBase + 0x14 + byteOfInt col) % 256 = 0x94 + col.toNat := by
        simp only [lcdDDRAMAddrBase, byteOfInt]; omega
      unfold SetCursor
      rw [if_neg (by omega), if_neg (by decide), if_neg (by decide), if_pos rfl, harg]
      norm_num
    · have harg : (lcdDDRAMAddrBase + 0x54 + byteOfInt col) % 256 = 0xD4 + col.toNat := by
        simp only [lcdDDRAMAddrBase, byteOfInt]; omega
      unfold SetCursor
      rw [if_neg (by omega), if_neg (by decide), if_neg (by decide), if_neg (by decide),
        if_pos rfl, harg]
      norm_num
  · intro h
    unfold SetCursor
    split_ifs with h1 h2 h3 h4 h5 <;> first | rfl | (exfalso; omega)

/-- C3 witness: the amended cursor theorem evaluated on the 16x2 handle, both
on the in-range call SetCursor(1, 3) and on the rejected call SetCursor(5, 0). -/
theorem setCursor_addresses_witness :
    ((⟨0, 16, 2, Font5x8, 0x04⟩ : LCD).cols = 16 ∨
      (⟨0, 16, 2, Font5x8, 0x04⟩ : LCD).cols = 20) ∧
    SetCursor ⟨0, 16, 2, Font5x8, 0x04⟩ 1 3 =
      (.ok (), sendCommand ⟨0, 16, 2, Font5x8, 0x04⟩ 0xC3) ∧
    failsInvalidArgNoWrites (SetCursor ⟨0, 16, 2, Font5x8, 0x04⟩ 5 0) = true := by
  refine ⟨Or.inl rfl, ?_, ?_⟩
  · exact (setCursor_addresses ⟨0, 16, 2, Font5x8, 0x04⟩ 1 3 (Or.inl rfl)).1 (by norm_num)
  · exact (setCursor_addresses ⟨0, 16, 2, Font5x8, 0x04⟩ 5 0 (Or.inl rfl)).2 (by omega)

/-! ## C5: custom character upload -/

/-- C5: for every location byte (including values above 7) and every 8-byte
pattern, UploadCustomChar masks the location to 3 bits and emits exactly one
CGRAM-set-address command 0x40 OR (masked location shifted left 3) followed by
exactly the eight pattern bytes as data sends, in order; the upper bits of the
location never change the trace, and the operation has no failure path. -/
theorem uploadCustomChar_trace (lcd : LCD) (location : Nat) (char : Fin 8 → Nat) :
    UploadCustomChar lcd location char =
      sendCommand lcd (lcdCGRAMAddrBase ||| ((location &&& 0x7) <<< 3)) ++
        (List.ofFn fun i => sendData lcd (char i)).flatten ∧
    UploadCustomChar lcd location char = UploadCustomChar lcd (location &&& 0x7) char := by
  have h7 : location &&& 0x7 < 8 := Nat.lt_succ_of_le (Nat.and_le_right)
  have hsm : ((location &&& 0x7) <<< 3) % 256 = (location &&& 0x7) <<< 3 := by
    apply Nat.mod_eq_of_lt
    rw [Nat.shiftLeft_eq]
    omega
  constructor
  · simp only [UploadCustomChar, hsm]
  · simp only [UploadCustomChar, Nat.and_assoc]
    rfl

/-! ## C6: end-to-end print -/

/-- C6: constructing a 16x2, 5x8-font handle with the backlight on succeeds,
and Print("HI", 0, 0) on that handle emits the address command 0x80 followed
by the data bytes 0x48 and 0x49, each split into high then low nibble with two
transport writes per nibble — twelve transport bytes in total, every one of
which carries the backlight bit 0x08. -/
theorem print_hi_end_to_end :
    (New DefaultDevice DefaultAddress 16 2 Font5x8 true).1 =
      .ok { backlight := lcdBacklightOn, cols := 16, rows := 2, font := Font5x8,
            displayState := lcdDisplayOn ||| lcdDisplayCursorOff ||| lcdDisplayBlinkOff } ∧
    Print { backlight := lcdBacklightOn, cols := 16, rows := 2, font := Font5x8,
            displayState := lcdDisplayOn ||| lcdDisplayCursorOff ||| lcdDisplayBlinkOff }
        "HI" 0 0 =
      (.ok (),
        sendCommand
          { backlight := lcdBacklightOn, cols := 16, rows := 2, font := Font5x8,
            displayState := lcdDisplayOn ||| lcdDisplayCursorOff ||| lcdDisplayBlinkOff }
          0x80 ++
        sendData
          { backlight := lcdBacklightOn, cols := 16, rows := 2, font := Font5x8,
            displayState := lcdDisplayOn ||| lcdDisplayCursorOff ||| lcdDisplayBlinkOff }
          0x48 ++
        sendData
          { backlight := lcdBacklightOn, cols := 16, rows := 2, font := Font5x8,
            displayState := lcdDisplayOn ||| lcdDisplayCursorOff ||| lcdDisplayBlinkOff }
          0x49) ∧
    (Print { backlight := lcdBacklightOn, cols := 16, rows := 2, font := Font5x8,
             displayState := lcdDisplayOn ||| lcdDisplayCursorOff ||| lcdDisplayBlinkOff }
        "HI" 0 0).2 =
      [0x8C, 0x88, 0x0C, 0x08, 0x4D, 0x49, 0x8D, 0x89, 0x4D, 0x49, 0x9D, 0x99] ∧
    ((Print { backlight := lcdBacklightOn, cols := 16, rows := 2, font := Font5x8,
              displayState := lcdDisplayOn ||| lcdDisplayCursorOff ||| lcdDisplayBlinkOff }
        "HI" 0 0).2.all fun b => b &&& lcdBacklightOn == lcdBacklightOn) = true := by
  refine ⟨rfl, rfl, rfl, by decide⟩

/-! ## C7: display-control toggles -/

/-- C7: each of DisplayOn/DisplayOff, CursorOn/CursorOff and BlinkOn/BlinkOff
sets or clears exactly its own bit of the mirrored display-control state,
leaves the other two display-control bits unchanged, re-sends the full
display-control command byte in a single command, and leaves the backlight
and geometry fields of the handle untouched. -/
theorem display_control_ops (lcd : LCD) (h : lcd.displayState < 256) :
    ((DisplayOn lcd).1.displayState &&& 0x7 = (lcd.displayState &&& 0x3) ||| lcdDisplayOn ∧
     (DisplayOn lcd).1 = { lcd with displayState := (DisplayOn lcd).1.displayState } ∧
     (DisplayOn lcd).2 =
       sendCommand (DisplayOn lcd).1 (lcdDisplayCtrl ||| (DisplayOn lcd).1.displayState)) ∧
    ((DisplayOff lcd).1.displayState &&& 0x7 = lcd.displayState &&& 0x3 ∧
     (DisplayOff lcd).1 = { lcd with displayState := (DisplayOff lcd).1.displayState } ∧
     (DisplayOff lcd).2 =
       sendCommand (DisplayOff lcd).1 (lcdDisplayCtrl ||| (DisplayOff lcd).1.displayState)) ∧
    ((CursorOn lcd).1.displayState &&& 0x7 = (lcd.displayState &&& 0x5) ||| lcdDisplayCursorOn ∧
     (CursorOn lcd).1 = { lcd with displayState := (CursorOn lcd).1.displayState } ∧
     (CursorOn lcd).2 =
       sendCommand (CursorOn lcd).1 (lcdDisplayCtrl ||| (CursorOn lcd).1.displayState)) ∧
    ((CursorOff lcd).1.displayState &&& 0x7 = lcd.displayState &&& 0x5 ∧
     (CursorOff lcd).1 = { lcd with displayState := (CursorOff lcd).1.displayState } ∧
     (CursorOff lcd).2 =
       sendCommand (CursorOff lcd).1 (lcdDisplayCtrl ||| (CursorOff lcd).1.displayState)) ∧
    ((BlinkOn lcd).1.displayState &&& 0x7 = (lcd.displayState &&& 0x6) ||| lcdDisplayBlinkOn ∧
     (BlinkOn lcd).1 = { lcd with displayState := (BlinkOn lcd).1.displayState } ∧
     (BlinkOn lcd).2 =
       sendCommand (BlinkOn lcd).1 (lcdDisplayCtrl ||| (BlinkOn lcd).1.displayState)) ∧
    ((BlinkOff lcd).1.displayState &&& 0x7 = lcd.displayState &&& 0x6 ∧
     (BlinkOff lcd).1 = { lcd with displayState := (BlinkOff lcd).1.displayState } ∧
     (BlinkOff lcd).2 =
       sendCommand (BlinkOff lcd).1 (lcdDisplayCtrl ||| (BlinkOff lcd).1.displayState)) := by
  obtain ⟨b1, b2, b3, b4, b5, b6⟩ := displayState_bit_facts lcd.displayState h
  exact ⟨⟨b1, rfl, rfl⟩, ⟨b2, rfl, rfl⟩, ⟨b3, rfl, rfl⟩,
         ⟨b4, rfl, rfl⟩, ⟨b5, rfl, rfl⟩, ⟨b6, rfl, rfl⟩⟩

/-- C7 witness: the display-control theorem evaluated on a handle whose
mirrored state has the display bit set, checking the CursorOn conjunct. -/
theorem display_control_ops_witness :
    (⟨lcdBacklightOn, 16, 2, Font5x8, 0x04⟩ : LCD).displayState < 256 ∧
    (CursorOn ⟨lcdBacklightOn, 16, 2, Font5x8, 0x04⟩).1.displayState &&& 0x7 =
      ((⟨lcdBacklightOn, 16, 2, Font5x8, 0x04⟩ : LCD).displayState &&& 0x5) |||
        lcdDisplayCursorOn :=
  ⟨by decide,
   (display_control_ops ⟨lcdBacklightOn, 16, 2, Font5x8, 0x04⟩ (by decide)).2.2.1.1⟩

/-! ## C8: backlight toggle round trip -/

/-- C8: a single ToggleBacklight flips the stored backlight byte between the
on value 0x08 and the off value 0x00, so two successive toggles return the
stored backlight byte to its original value. -/
theorem toggleBacklight_roundtrip (lcd : LCD)
    (h : lcd.backlight = lcdBacklightOff ∨ lcd.backlight = lcdBacklightOn) :
    (ToggleBacklight lcd).1.backlight =
      (if lcd.backlight = lcdBacklightOff then lcdBacklightOn else lcdBacklightOff) ∧
    (ToggleBacklight (ToggleBacklight lcd).1).1.backlight = lcd.backlight := by
  rcases h with h | h <;>
    simp [ToggleBacklight, EnableBacklight, DisableBacklight, h,
      lcdBacklightOn, lcdBacklightOff]

/-- C8 witness: the round-trip theorem evaluated on a handle with the
backlight on. -/
theorem toggleBacklight_roundtrip_witness :
    ((⟨lcdBacklightOn, 16, 2, Font5x8, 0x04⟩ : LCD).backlight = lcdBacklightOff ∨
      (⟨lcdBacklightOn, 16, 2, Font5x8, 0x04⟩ : LCD).backlight = lcdBacklightOn) ∧
    (ToggleBacklight (ToggleBacklight ⟨lcdBacklightOn, 16, 2, Font5x8, 0x04⟩).1).1.backlight =
      (⟨lcdBacklightOn, 16, 2, Font5x8, 0x04⟩ : LCD).backlight :=
  ⟨Or.inr rfl,
   (toggleBacklight_roundtrip ⟨lcdBacklightOn, 16, 2, Font5x8, 0x04⟩ (Or.inr rfl)).2⟩

/-! ## C10: raw backlight writes -/

/-- C10: EnableBacklight and DisableBacklight first store the backlight byte
(0x08 or 0x00) in the handle and then perform exactly one raw transport write
equal to that stored byte, bypassing the nibble framing and the enable-latch
pulse, so the register-select bit, the enable bit and the four data-pin bits
are all low in that write. -/
theorem backlight_ops_raw (lcd : LCD) :
    EnableBacklight lcd = ({ lcd with backlight := lcdBacklightOn }, [lcdBacklightOn]) ∧
    DisableBacklight lcd = ({ lcd with backlight := lcdBacklightOff }, [lcdBacklightOff]) ∧
    (EnableBacklight lcd).2 = busWrite (EnableBacklight lcd).1.backlight ∧
    (DisableBacklight lcd).2 = busWrite (DisableBacklight lcd).1.backlight ∧
    (EnableBacklight lcd).2.length = 1 ∧
    (DisableBacklight lcd).2.length = 1 ∧
    lcdBacklightOn &&& (lcdRegisterData ||| lcdEnableBit ||| 0xF0) = 0 ∧
    lcdBacklightOff &&& (lcdRegisterData ||| lcdEnableBit ||| 0xF0) = 0 :=
  ⟨rfl, rfl, rfl, rfl, rfl, rfl, by decide, by decide⟩

end Lcd
